import Mathlib

/-!
Verification of the NeoXtractor core geometry pipeline: a shallow embedding of
the glTF exporter (`core/mesh_converter/formats/gltf.py`), the mesh
post-processor (`gui/widgets/mesh_viewer/mesh_data.py`) and the orbit camera
(`gui/widgets/mesh_viewer/camera.py`), together with theorems settling the
frozen claims about them.

Python floats are modelled as exact rationals (`ℚ`), Python ints as `ℕ`/`ℤ`,
and fallible Python code (raised exceptions) as `Except PyError`.
-/

namespace NeoX

/-- 3-component float vector. -/
abbrev Vec3 := ℚ × ℚ × ℚ

/-- 2-component float vector (UV coordinate). -/
abbrev Vec2 := ℚ × ℚ

/-- Triangle: three vertex indices. -/
abbrev Face := ℕ × ℕ × ℕ

/-- 4x4 float matrix (bone bind pose). -/
abbrev Mat4 := Matrix (Fin 4) (Fin 4) ℚ

/-- The Python exceptions the embedded code can raise, identified by raise
site:
* `invalidMesh` — the `ValueError("Mesh must contain positions and face
  indices.")` raised by the glTF converter's validation (the spec's
  `InvalidMeshError`);
* `indexError` — a numpy/list `IndexError` (indexing an empty or too-short
  array/list);
* `shapeMismatch` — the `ValueError` raised by `np.hstack` on rows of
  different counts;
* `structError` — `struct.error` from `struct.pack` on an out-of-range
  integer (format `H` requires 0..65535, format `B` requires 0..255);
* `keyError` — a `KeyError` from reading a dict key that was never added. -/
inductive PyError where
  | invalidMesh
  | indexError
  | shapeMismatch
  | structError
  | keyError
deriving DecidableEq, Repr

/-- Modelled from the spec: `MeshData` lives in `core.mesh_loader.parsers`,
which is not part of the sources; its fields are taken from the spec's
RawMesh contract (§3) and from how `gltf.py` and `mesh_data.py` read them:
`position`/`normal` are sequences of 3-component float vectors, `uv` of
2-component vectors, `face` of triangles of vertex indices,
`has_normals`/`has_uvs`/`has_bones` are the attribute-presence flags, and the
bone channel holds per-bone names, parent indices (−1 for a root), 4x4 bind
matrices and per-vertex bone index / weight lists. -/
structure MeshData where
  position : List Vec3 := []
  normal : List Vec3 := []
  uv : List Vec2 := []
  face : List Face := []
  has_normals : Bool := false
  has_uvs : Bool := false
  has_bones : Bool := false
  vertex_bone : List (List ℕ) := []
  vertex_weight : List (List ℚ) := []
  bone_name : List String := []
  bone_parent : List ℤ := []
  bone_matrix : List Mat4 := []

/-! ## Mesh post-processor (`gui/widgets/mesh_viewer/mesh_data.py`) -/

/-- `pos[:, 0] = -pos[:, 0]`: negate the X component of a vertex. -/
def flipV3 (v : Vec3) : Vec3 := (-v.1, v.2.1, v.2.2)

/-- `np.array(raw_data.face)[:, [1, 0, 2]]` on one face: swap the first two
indices. -/
def swapFace (f : Face) : Face := (f.2.1, f.1, f.2.2)

/-- One row of `np.hstack((pos, norm))`: a 6-float record, position then
normal. -/
def vrecord (p n : Vec3) : List ℚ := [p.1, p.2.1, p.2.2, n.1, n.2.1, n.2.2]

/-- `np.array(l); a[:, 0] = -a[:, 0]`: numpy raises `IndexError` when the
array is empty (it then has no second axis), otherwise flips X of every row. -/
def npFlipX (l : List Vec3) : Except PyError (List Vec3) :=
  if l.isEmpty then .error .indexError else .ok (l.map flipV3)

/-- `np.hstack((pos, norm))`: raises on differing row counts, otherwise
concatenates the rows pairwise. -/
def npHstack (a b : List Vec3) : Except PyError (List (List ℚ)) :=
  if a.length = b.length then .ok (List.zipWith vrecord a b)
  else .error .shapeMismatch

/-- `np.array(faces)[:, [1, 0, 2]]`: numpy raises `IndexError` on an empty
face list (no second axis), otherwise reorders each face `(a,b,c)` to
`(b,a,c)`. -/
def npSwapIdx (l : List Face) : Except PyError (List Face) :=
  if l.isEmpty then .error .indexError else .ok (l.map swapFace)

/-- `matrix.T[:3, 3]`: the translation component, i.e. row 3 of the matrix,
first three entries. -/
def translOf (m : Mat4) : Vec3 := (m 3 0, m 3 1, m 3 2)

/-- Python list subscript `l[i]`: a negative index counts from the end;
raises `IndexError` when out of range. -/
def pyGetE {α : Type} (l : List α) (i : ℤ) : Except PyError α :=
  let j := if i < 0 then i + l.length else i
  if h : 0 ≤ j ∧ j.toNat < l.length then .ok (l.get ⟨j.toNat, h.2⟩)
  else .error .indexError

/-- One iteration of the bone loop: read `bone_matrix[i]`, flip the
translation's X to get the bone position, and when the parent index is not
−1 also read the parent's matrix and emit the (child, parent) position
pair. -/
def boneStep (mats : List Mat4) (acc : List Vec3 × List Vec3) (ip : ℕ × ℤ) :
    Except PyError (List Vec3 × List Vec3) :=
  match pyGetE mats (ip.1 : ℤ) with
  | .error e => .error e
  | .ok m =>
    let p := flipV3 (translOf m)
    let bps := acc.1 ++ [p]
    if ip.2 ≠ -1 then
      match pyGetE mats ip.2 with
      | .error e => .error e
      | .ok pm => .ok (bps, acc.2 ++ [p, flipV3 (translOf pm)])
    else .ok (bps, acc.2)

/-- The bone loop, folded over the enumerated `bone_parent` list. -/
def boneFold (mats : List Mat4) (l : List (ℕ × ℤ)) (acc : List Vec3 × List Vec3) :
    Except PyError (List Vec3 × List Vec3) :=
  match l with
  | [] => .ok acc
  | ip :: rest =>
    match boneStep mats acc ip with
    | .error e => .error e
    | .ok acc2 => boneFold mats rest acc2

/-- `for i, parent in enumerate(raw_data.bone_parent): ...` building
`bone_positions` and `bone_lines`. -/
def boneData (parents : List ℤ) (mats : List Mat4) :
    Except PyError (List Vec3 × List Vec3) :=
  boneFold mats parents.enum ([], [])

/-- The processed mesh: interleaved 6-float vertex records, reordered faces,
normal debug lines, bone positions and bone (child, parent) line points. -/
structure ProcessedMeshData where
  vertices : List (List ℚ)
  indices : List Face
  normal_lines : List Vec3
  bone_positions : List Vec3
  bone_lines : List Vec3

/-- `ProcessedMeshData.__init__`: flip X of positions and normals, interleave
them, reorder face indices, derive normal lines and the bone skeleton
lines. Each numpy step that raises on this path is modelled by its
`Except` counterpart, in source order. -/
def processMesh (raw : MeshData) : Except PyError ProcessedMeshData :=
  match npFlipX raw.position with
  | .error e => .error e
  | .ok pos =>
    match npFlipX raw.normal with
    | .error e => .error e
    | .ok norm =>
      match npHstack pos norm with
      | .error e => .error e
      | .ok vertices =>
        match npSwapIdx raw.face with
        | .error e => .error e
        | .ok indices =>
          let normal_lines :=
            (List.zipWith (fun p n => [p, p + (8 / 1000 : ℚ) • n]) pos norm).flatten
          match boneData raw.bone_parent raw.bone_matrix with
          | .error e => .error e
          | .ok bd =>
            .ok { vertices := vertices, indices := indices,
                  normal_lines := normal_lines,
                  bone_positions := bd.1, bone_lines := bd.2 }

/-! ## Camera (`gui/widgets/mesh_viewer/camera.py`)

Angles are kept in degrees in the state; the trigonometric values the code
computes from them (`math.sin`/`math.cos`/`math.tan` results, which are
irrational in general) are passed in symbolically as a `TrigData` record, so
every matrix stays an exact rational matrix. -/

/-- Camera state, with the constructor's initial values as defaults. -/
structure Camera where
  pos : Vec3 := (0, 1, 4)
  pitch : ℚ := 0
  yaw : ℚ := 0
  roll : ℚ := 0
  dist : ℚ := 5
  fov_y : ℚ := 45
  aspect_ratio : ℚ := 1
  perspective : Bool := true
  min_dist : ℚ := 5
  max_dist : ℚ := 1500

/-- The trigonometric values the camera code computes: cosine and sine of
pitch, yaw and roll, cosine and sine of `fov_y/2` (used by the perspective
projection) and `tan(radians(fov_y/2))` (used by the orthogonal
projection). -/
structure TrigData where
  cp : ℚ
  sp : ℚ
  cy : ℚ
  sy : ℚ
  cr : ℚ
  sr : ℚ
  c2 : ℚ
  s2 : ℚ
  thf : ℚ

/-- Build a 4x4 matrix from a row list (row-major). -/
def mkMat (rows : List (List ℚ)) : Mat4 :=
  Matrix.of fun i j => ((rows.getD i []).getD j 0)

/-- Translation matrix `T(v)`. -/
def translationMat (v : Vec3) : Mat4 :=
  mkMat [[1, 0, 0, v.1], [0, 1, 0, v.2.1], [0, 0, 1, v.2.2], [0, 0, 0, 1]]

/-- Rotation about the X axis, given cosine and sine of the angle. -/
def rotXMat (c s : ℚ) : Mat4 :=
  mkMat [[1, 0, 0, 0], [0, c, -s, 0], [0, s, c, 0], [0, 0, 0, 1]]

/-- Rotation about the Y axis. -/
def rotYMat (c s : ℚ) : Mat4 :=
  mkMat [[c, 0, s, 0], [0, 1, 0, 0], [-s, 0, c, 0], [0, 0, 0, 1]]

/-- Rotation about the Z axis. -/
def rotZMat (c s : ℚ) : Mat4 :=
  mkMat [[c, -s, 0, 0], [s, c, 0, 0], [0, 0, 1, 0], [0, 0, 0, 1]]

/-- `QMatrix4x4.translate(v)`: post-multiplies the receiver by `T(v)`. -/
def qmTranslate (m : Mat4) (v : Vec3) : Mat4 := m * translationMat v

/-- `QMatrix4x4.rotate(angle, (1,0,0))`: post-multiplies by the X rotation. -/
def qmRotX (m : Mat4) (c s : ℚ) : Mat4 := m * rotXMat c s

/-- `QMatrix4x4.rotate(angle, (0,1,0))`: post-multiplies by the Y rotation. -/
def qmRotY (m : Mat4) (c s : ℚ) : Mat4 := m * rotYMat c s

/-- `QMatrix4x4.rotate(angle, (0,0,1))`: post-multiplies by the Z rotation. -/
def qmRotZ (m : Mat4) (c s : ℚ) : Mat4 := m * rotZMat c s

/-- `Camera.rot`: start from the identity, rotate by pitch about X, then by
yaw about Y, then by roll about Z (each a Qt post-multiplication). -/
def Camera.rot (_cam : Camera) (t : TrigData) : Mat4 :=
  let m : Mat4 := 1
  let m := qmRotX m t.cp t.sp
  let m := qmRotY m t.cy t.sy
  qmRotZ m t.cr t.sr

/-- `Camera.view`: translate a fresh matrix by the negated position,
left-multiply by the rotation, then left-multiply by the distance
translation. -/
def Camera.view (cam : Camera) (t : TrigData) : Mat4 :=
  let v : Mat4 := 1
  let v := qmTranslate v (-cam.pos)
  let v := cam.rot t * v
  let dist_matrix := qmTranslate (1 : Mat4) (0, 0, -cam.dist)
  dist_matrix * v

/-- The matrix `QMatrix4x4.perspective` post-multiplies by, given cosine and
sine of half the vertical angle, the aspect ratio and the near/far planes. -/
def perspMat (c s a n f : ℚ) : Mat4 :=
  mkMat [[(c / s) / a, 0, 0, 0],
         [0, c / s, 0, 0],
         [0, 0, -(n + f) / (f - n), -(2 * n * f) / (f - n)],
         [0, 0, -1, 0]]

/-- The matrix `QMatrix4x4.ortho(l, r, b, t, n, f)` post-multiplies by. -/
def orthoMat (l r b t n f : ℚ) : Mat4 :=
  mkMat [[2 / (r - l), 0, 0, -(l + r) / (r - l)],
         [0, 2 / (t - b), 0, -(t + b) / (t - b)],
         [0, 0, -2 / (f - n), -(n + f) / (f - n)],
         [0, 0, 0, 1]]

/-- `Camera.proj`: a perspective matrix when `perspective` is set (Qt leaves
the identity untouched on a degenerate aspect ratio or angle), otherwise a
symmetric orthographic box of half-extent `tan(fov_y/2) * |dist|`, widened
horizontally when `aspect_ratio >= 1` and vertically otherwise. -/
def Camera.proj (cam : Camera) (t : TrigData) : Mat4 :=
  let p : Mat4 := 1
  if cam.perspective then
    if cam.aspect_ratio = 0 ∨ t.s2 = 0 then p
    else p * perspMat t.c2 t.s2 cam.aspect_ratio (1 / 10) 1000
  else
    let len := t.thf * |cam.dist|
    if 1 ≤ cam.aspect_ratio then
      if -(len * cam.aspect_ratio) = len * cam.aspect_ratio ∨ -len = len then p
      else p * orthoMat (-(len * cam.aspect_ratio)) (len * cam.aspect_ratio)
                        (-len) len (1 / 10) 1000
    else
      if -len = len ∨ -(len / cam.aspect_ratio) = len / cam.aspect_ratio then p
      else p * orthoMat (-len) len
                        (-(len / cam.aspect_ratio)) (len / cam.aspect_ratio)
                        (1 / 10) 1000

/-- `Camera.view_proj`: the projection matrix times the view matrix. -/
def Camera.view_proj (cam : Camera) (t : TrigData) : Mat4 :=
  cam.proj t * cam.view t

/-- `Camera.focus(point)`: take the point's first three components when it is
a 3-or-more element sequence (origin otherwise), store it as the position,
then set `dist` to the Euclidean distance from the just-stored position to
the focus point. `math.sqrt` is passed in symbolically as `sq`. -/
def Camera.focus (cam : Camera) (point : List ℚ) (sq : ℚ → ℚ) : Camera :=
  let focus_point : Vec3 :=
    if 3 ≤ point.length then (point.getD 0 0, point.getD 1 0, point.getD 2 0)
    else (0, 0, 0)
  let cam := { cam with pos := focus_point }
  { cam with
    dist := sq ((cam.pos.1 - focus_point.1) ^ 2 +
                (cam.pos.2.1 - focus_point.2.1) ^ 2 +
                (cam.pos.2.2 - focus_point.2.2) ^ 2) }

/-! ## glTF exporter (`core/mesh_converter/formats/gltf.py`)

The binary blob is a byte list; a packed 4-byte float is modelled as four
tagged bytes carrying the value, a packed unsigned short as two, a packed
unsigned byte as one, so that blob equality and every length/offset equation
are exactly those of the Python `bytearray`. -/

/-- One byte of the packed binary blob, tagged with the value it came from
and its position within that value's encoding. -/
inductive GByte where
  | f (value : ℚ) (idx : Fin 4)
  | h (value : ℕ) (idx : Fin 2)
  | b (value : ℕ)
deriving DecidableEq, Repr

/-- `struct.pack(f"{n}f", *xs)`: four bytes per float, never fails on a
float. -/
def fBytes (xs : List ℚ) : List GByte :=
  xs.flatMap fun x => (List.finRange 4).map (GByte.f x)

/-- The bytes of `struct.pack(f"{n}H", *xs)` when it succeeds. -/
def hBytesRaw (xs : List ℕ) : List GByte :=
  xs.flatMap fun x => (List.finRange 2).map (GByte.h x)

/-- The bytes of `struct.pack(f"{n}B", *xs)` when it succeeds. -/
def bBytesRaw (xs : List ℕ) : List GByte := xs.map GByte.b

/-- `struct.pack(f"{n}H", *xs)`: raises `struct.error` when a value exceeds
the unsigned 16-bit range. -/
def packH (xs : List ℕ) : Except PyError (List GByte) :=
  if xs.all (· ≤ 65535) then .ok (hBytesRaw xs) else .error .structError

/-- `struct.pack(f"{n}B", *xs)`: raises `struct.error` when a value exceeds
the unsigned 8-bit range. -/
def packB (xs : List ℕ) : Except PyError (List GByte) :=
  if xs.all (· ≤ 255) then .ok (bBytesRaw xs) else .error .structError

/-- Flatten a list of 3-vectors. -/
def flat3 (l : List Vec3) : List ℚ := l.flatMap fun v => [v.1, v.2.1, v.2.2]

/-- Flatten a list of 2-vectors. -/
def flat2 (l : List Vec2) : List ℚ := l.flatMap fun v => [v.1, v.2]

/-- `mesh.normal if mesh.has_normals else []`. -/
def normalsOf (mesh : MeshData) : List Vec3 :=
  if mesh.has_normals then mesh.normal else []

/-- `mesh.uv if mesh.has_uvs else []`. -/
def uvsOf (mesh : MeshData) : List Vec2 :=
  if mesh.has_uvs then mesh.uv else []

/-- `vertex_buffer`: flattened positions. -/
def vertexBuffer (mesh : MeshData) : List ℚ := flat3 mesh.position

/-- `normal_buffer`: flattened normals (empty when absent). -/
def normalBuffer (mesh : MeshData) : List ℚ := flat3 (normalsOf mesh)

/-- `uv_buffer`: flattened UVs (empty when absent). -/
def uvBuffer (mesh : MeshData) : List ℚ := flat2 (uvsOf mesh)

/-- `index_buffer`: flattened triangle indices. -/
def indexBuffer (mesh : MeshData) : List ℕ :=
  mesh.face.flatMap fun f => [f.1, f.2.1, f.2.2]

/-- Truncate to four entries and zero-pad up to four. -/
def pad4N (l : List ℕ) : List ℕ :=
  let j := l.take 4
  j ++ List.replicate (4 - j.length) 0

/-- Truncate to four entries and zero-pad up to four. -/
def pad4Q (l : List ℚ) : List ℚ :=
  let j := l.take 4
  j ++ List.replicate (4 - j.length) 0

/-- The per-vertex joint-index and weight quadruples: vertex `i` takes its
first four bone indices and weights, padded with zeros; a vertex beyond the
recorded lists defaults to joint 0 with weight 1. -/
def jointsWeightsFor (mesh : MeshData) (i : ℕ) : List ℕ × List ℚ :=
  if i < mesh.vertex_bone.length then
    let joints := (mesh.vertex_bone.getD i []).take 4
    let w := if i < mesh.vertex_weight.length then (mesh.vertex_weight.getD i []).take 4
             else [1, 0, 0, 0]
    ((pad4N joints).take 4, (pad4Q w).take 4)
  else ([0, 0, 0, 0], [1, 0, 0, 0])

/-- `joint_buffer`: four joint indices per vertex when bones are present. -/
def jointBuffer (mesh : MeshData) : List ℕ :=
  if mesh.has_bones then
    (List.range mesh.position.length).flatMap fun i => (jointsWeightsFor mesh i).1
  else []

/-- `weight_buffer`: four weights per vertex when bones are present. -/
def weightBuffer (mesh : MeshData) : List ℚ :=
  if mesh.has_bones then
    (List.range mesh.position.length).flatMap fun i => (jointsWeightsFor mesh i).2
  else []

/-- Row-major flattening of a 4x4 matrix (`matrix.flatten().tolist()`). -/
def flatten16 (m : Mat4) : List ℚ :=
  (List.finRange 4).flatMap fun i => (List.finRange 4).map fun j => m i j

/-- `np.linalg.inv` with the converter's `except` clause folded in: the exact
inverse when the matrix is invertible, the identity otherwise. -/
def inv4 (m : Mat4) : Mat4 :=
  if m.det = 0 then 1 else m.det⁻¹ • m.adjugate

/-- `inverse_bind_matrices`: the flattened inverses of the bind matrices, or
one flattened identity per bone name when no bind matrices are recorded;
empty without bones. -/
def ibmBuffer (mesh : MeshData) : List ℚ :=
  if mesh.has_bones then
    if mesh.bone_matrix.isEmpty then mesh.bone_name.flatMap fun _ => flatten16 1
    else mesh.bone_matrix.flatMap fun m => flatten16 (inv4 m)
  else []

/-- `min_position`: componentwise minimum over all positions (empty list for
an empty mesh, as `zip(*positions)` is then empty). -/
def minPosition (ps : List Vec3) : List ℚ :=
  match ps with
  | [] => []
  | p :: rest =>
    [rest.foldl (fun a q => min a q.1) p.1,
     rest.foldl (fun a q => min a q.2.1) p.2.1,
     rest.foldl (fun a q => min a q.2.2) p.2.2]

/-- `max_position`: componentwise maximum over all positions. -/
def maxPosition (ps : List Vec3) : List ℚ :=
  match ps with
  | [] => []
  | p :: rest =>
    [rest.foldl (fun a q => max a q.1) p.1,
     rest.foldl (fun a q => max a q.2.1) p.2.1,
     rest.foldl (fun a q => max a q.2.2) p.2.2]

/-- One entry of `gltf_data["bufferViews"]`. -/
structure BufferView where
  buffer : ℕ
  byteOffset : ℕ
  byteLength : ℕ
  target : Option ℕ
deriving DecidableEq, Repr

/-- One entry of `gltf_data["accessors"]`. -/
structure Accessor where
  bufferView : ℕ
  componentType : ℕ
  count : ℕ
  type : String
  min : Option (List ℚ)
  max : Option (List ℚ)
deriving DecidableEq, Repr

/-- The byte size of one component for a glTF component type code. -/
def compSize (ct : ℕ) : ℕ :=
  if ct = 5126 then 4 else if ct = 5123 then 2 else if ct = 5121 then 1 else 0

/-- The number of components of a glTF element type. -/
def compCount (ty : String) : ℕ :=
  if ty = "SCALAR" then 1 else if ty = "VEC2" then 2 else if ty = "VEC3" then 3
  else if ty = "VEC4" then 4 else if ty = "MAT4" then 16 else 0

/-- The binary blob together with the buffer-view/accessor bookkeeping the
converter threads through its running counters. -/
structure Layout where
  binary_data : List GByte
  bufferViews : List BufferView
  accessors : List Accessor
  position_accessor : ℕ
  normal_accessor : Option ℕ
  uv_accessor : Option ℕ
  index_accessor : ℕ
  joint_accessor : Option ℕ
  weight_accessor : Option ℕ
  ibm_accessor : Option ℕ
deriving DecidableEq, Repr

/-- `if buf: binary_data.extend(struct.pack(f"{n}B", *buf))`, returning the
extended blob and the section's byte count (`0` when skipped). -/
def appendPackB (bd : List GByte) (xs : List ℕ) :
    Except PyError (List GByte × ℕ) :=
  if xs.isEmpty then .ok (bd, 0)
  else match packB xs with
    | .error e => .error e
    | .ok ys => .ok (bd ++ ys, xs.length)

/-- Lines 41-315 of the converter: flatten every channel, append the packed
sections to the blob in the fixed order (positions, normals, UVs, indices,
joints, weights, inverse-bind matrices), record each section's byte offset
and length as it is appended, and lay down one buffer view and one accessor
per present section, indices assigned by running counters. -/
def buildLayout (mesh : MeshData) : Except PyError Layout :=
  let vb := vertexBuffer mesh
  let nb := normalBuffer mesh
  let uvb := uvBuffer mesh
  let ib := indexBuffer mesh
  let jb := jointBuffer mesh
  let wb := weightBuffer mesh
  let ibmb := ibmBuffer mesh
  let bd := fBytes vb
  let vertex_bytes := vb.length * 4
  let normal_offset := bd.length
  let bd := if nb.isEmpty then bd else bd ++ fBytes nb
  let normal_bytes := nb.length * 4
  let uv_offset := bd.length
  let bd := if uvb.isEmpty then bd else bd ++ fBytes uvb
  let uv_bytes := uvb.length * 4
  let index_offset := bd.length
  match packH ib with
  | .error e => .error e
  | .ok ibB =>
    let bd := bd ++ ibB
    let index_bytes := ib.length * 2
    let joint_offset := bd.length
    match appendPackB bd jb with
    | .error e => .error e
    | .ok bdj =>
      let bd := bdj.1
      let joint_bytes := bdj.2
      let weight_offset := bd.length
      let bd := if wb.isEmpty then bd else bd ++ fBytes wb
      let weight_bytes := if wb.isEmpty then 0 else wb.length * 4
      let ibm_offset := bd.length
      let bd := if ibmb.isEmpty then bd else bd ++ fBytes ibmb
      let ibm_bytes := if ibmb.isEmpty then 0 else ibmb.length * 4
      let views0 : List BufferView := [⟨0, 0, vertex_bytes, some 34962⟩]
      let s1 : List BufferView × ℕ × Option ℕ :=
        if 0 < normal_bytes then
          (views0 ++ [⟨0, normal_offset, normal_bytes, some 34962⟩], 2, some 1)
        else (views0, 1, none)
      let s2 : List BufferView × ℕ × Option ℕ :=
        if 0 < uv_bytes then
          (s1.1 ++ [⟨0, uv_offset, uv_bytes, some 34962⟩], s1.2.1 + 1, some s1.2.1)
        else (s1.1, s1.2.1, none)
      let index_buffer_view := s2.2.1
      let views3 := s2.1 ++ [⟨0, index_offset, index_bytes, some 34963⟩]
      let bvi3 := s2.2.1 + 1
      let s4 : List BufferView × ℕ × Option ℕ :=
        if 0 < joint_bytes then
          (views3 ++ [⟨0, joint_offset, joint_bytes, some 34962⟩], bvi3 + 1, some bvi3)
        else (views3, bvi3, none)
      let s5 : List BufferView × ℕ × Option ℕ :=
        if 0 < weight_bytes then
          (s4.1 ++ [⟨0, weight_offset, weight_bytes, some 34962⟩], s4.2.1 + 1, some s4.2.1)
        else (s4.1, s4.2.1, none)
      let s6 : List BufferView × ℕ × Option ℕ :=
        if 0 < ibm_bytes then
          (s5.1 ++ [⟨0, ibm_offset, ibm_bytes, none⟩], s5.2.1 + 1, some s5.2.1)
        else (s5.1, s5.2.1, none)
      let accs0 : List Accessor :=
        [⟨0, 5126, mesh.position.length, "VEC3",
          some (minPosition mesh.position), some (maxPosition mesh.position)⟩]
      let a1 : List Accessor × ℕ × Option ℕ :=
        match s1.2.2 with
        | some nv => (accs0 ++ [⟨nv, 5126, (normalsOf mesh).length, "VEC3", none, none⟩], 2, some 1)
        | none => (accs0, 1, none)
      let a2 : List Accessor × ℕ × Option ℕ :=
        match s2.2.2 with
        | some uvv => (a1.1 ++ [⟨uvv, 5126, (uvsOf mesh).length, "VEC2", none, none⟩], a1.2.1 + 1, some a1.2.1)
        | none => (a1.1, a1.2.1, none)
      let index_accessor := a2.2.1
      let accs3 := a2.1 ++ [⟨index_buffer_view, 5123, ib.length, "SCALAR", none, none⟩]
      let ai3 := a2.2.1 + 1
      let a4 : List Accessor × ℕ × Option ℕ :=
        match s4.2.2 with
        | some jv => (accs3 ++ [⟨jv, 5121, jb.length / 4, "VEC4", none, none⟩], ai3 + 1, some ai3)
        | none => (accs3, ai3, none)
      let a5 : List Accessor × ℕ × Option ℕ :=
        match s5.2.2 with
        | some wv => (a4.1 ++ [⟨wv, 5126, wb.length / 4, "VEC4", none, none⟩], a4.2.1 + 1, some a4.2.1)
        | none => (a4.1, a4.2.1, none)
      let a6 : List Accessor × ℕ × Option ℕ :=
        match s6.2.2 with
        | some iv => (a5.1 ++ [⟨iv, 5126, ibmb.length / 16, "MAT4", none, none⟩], a5.2.1 + 1, some a5.2.1)
        | none => (a5.1, a5.2.1, none)
      .ok { binary_data := bd, bufferViews := s6.1, accessors := a6.1,
            position_accessor := 0, normal_accessor := a1.2.2,
            uv_accessor := a2.2.2, index_accessor := index_accessor,
            joint_accessor := a4.2.2, weight_accessor := a5.2.2,
            ibm_accessor := a6.2.2 }

/-- A mesh primitive: attribute-name to accessor-index pairs plus the index
accessor. -/
structure Primitive where
  attributes : List (String × ℕ)
  indices : ℕ
deriving DecidableEq, Repr

/-- One entry of `gltf_data["nodes"]`. -/
structure Node where
  name : String
  translation : Option (List ℚ) := none
  rotation : Option (List ℚ) := none
  scale : Option (List ℚ) := none
  children : List ℕ := []
  mesh : Option ℕ := none
  skin : Option ℕ := none
deriving DecidableEq, Repr

/-- One entry of `gltf_data["skins"]`. -/
structure Skin where
  joints : List ℕ
  inverseBindMatrices : ℕ
deriving DecidableEq, Repr

/-- The single buffer entry: its data URI carries the blob itself. -/
structure GBuffer where
  uri : List GByte
  byteLength : ℕ
deriving DecidableEq, Repr

/-- The glTF document. `skins = none` models the `"skins"` key being absent
from the `gltf_data` dict — the dict initialized at the top of `convert` has
no such key. -/
structure GltfDoc where
  meshes : List (List Primitive)
  accessors : List Accessor
  bufferViews : List BufferView
  buffers : List GBuffer
  nodes : List Node
  scenes : List (List ℕ)
  scene : ℕ
  skins : Option (List Skin)
deriving DecidableEq, Repr

/-- The tail of the bones branch shared by both `ibm_accessor` cases: read
`gltf_data["skins"]` (raising `KeyError` when the key is absent) to decide
the mesh node's `skin` field, append the mesh node, and point the scene
roots at it. -/
def finishBoned (mesh : MeshData) (doc : GltfDoc) : Except PyError GltfDoc :=
  match doc.skins with
  | none => .error .keyError
  | some s =>
    let meshNode : Node :=
      { name := "Mesh", mesh := some 0,
        skin := if s.isEmpty then none else some 0 }
    let doc := { doc with nodes := doc.nodes ++ [meshNode] }
    .ok { doc with scenes := [[mesh.bone_name.length]] }

/-- Lines 317-383 of the converter: assemble the primitive and the document,
then the scene graph. With bones, one node per bone is created (children
wired from `bone_parent`), then the code appends the skin to
`gltf_data["skins"]` — a key the initial dict never receives, so that access
raises `KeyError`. Without bones a single mesh node is emitted. -/
def buildDoc (mesh : MeshData) (l : Layout) : Except PyError GltfDoc :=
  let attrs := [("POSITION", l.position_accessor)]
    ++ (match l.normal_accessor with | some a => [("NORMAL", a)] | none => [])
    ++ (match l.uv_accessor with | some a => [("TEXCOORD_0", a)] | none => [])
    ++ (match l.joint_accessor with | some a => [("JOINTS_0", a)] | none => [])
    ++ (match l.weight_accessor with | some a => [("WEIGHTS_0", a)] | none => [])
  let prim : Primitive := { attributes := attrs, indices := l.index_accessor }
  let doc : GltfDoc :=
    { meshes := [[prim]], accessors := l.accessors,
      bufferViews := l.bufferViews,
      buffers := [{ uri := l.binary_data, byteLength := l.binary_data.length }],
      nodes := [], scenes := [[0]], scene := 0, skins := none }
  if mesh.has_bones then
    let boneNodes : List Node := mesh.bone_name.enum.map fun inm =>
      { name := inm.2, translation := some [0, 0, 0],
        rotation := some [0, 0, 0, 1], scale := some [1, 1, 1],
        children := mesh.bone_parent.enum.filterMap fun jp =>
          if jp.2 = (inm.1 : ℤ) then some jp.1 else none }
    let doc := { doc with nodes := boneNodes }
    match l.ibm_accessor with
    | some a =>
      (match doc.skins with
       | none => .error .keyError
       | some s =>
         finishBoned mesh
           { doc with skins := some (s ++
               [{ joints := List.range mesh.bone_name.length,
                  inverseBindMatrices := a }]) })
    | none => finishBoned mesh doc
  else
    .ok { doc with nodes := [{ name := "Mesh", mesh := some 0 }] }

/-- `convert(mesh)`: validate that positions and faces are non-empty, build
the binary layout, then the document. -/
def convert (mesh : MeshData) : Except PyError GltfDoc :=
  if mesh.position.isEmpty || mesh.face.isEmpty then .error .invalidMesh
  else match buildLayout mesh with
    | .error e => .error e
    | .ok l => buildDoc mesh l

/-! ## Spec-side auxiliary definitions and witness inputs -/

/-- The already-flipped mesh: X of every position and normal negated and
every face's first two indices swapped, as the post-processor emits them. -/
def flipRaw (raw : MeshData) : MeshData :=
  { raw with position := raw.position.map flipV3,
             normal := raw.normal.map flipV3,
             face := raw.face.map swapFace }

/-- Bone `j`'s world position: the translation row of its bind matrix with X
negated. -/
def bonePosOf (mats : List Mat4) (j : ℕ) : Vec3 :=
  flipV3 (translOf (mats.getD j 1))

/-- Written from the spec's words for the bone-line claim: one (child,
parent) position pair per bone whose parent is not −1, in `bone_parent`
order, roots contributing nothing; compared against the fold the
post-processor actually runs. -/
def specBoneLines (parents : List ℤ) (mats : List Mat4) : List Vec3 :=
  parents.enum.flatMap fun ip =>
    if ip.2 = -1 then [] else [bonePosOf mats ip.1, bonePosOf mats ip.2.toNat]

/-- The big conjunction claimed of the exporter's binary layout: the blob is
the concatenation of the packed sections in the fixed order; every accessor's
buffer view is `count x component_size x component_count` bytes long; the
buffer views tile the blob contiguously from offset 0; and the accessors
carry exactly the claimed component-type/element-type signatures for the
present sections. -/
def layoutSpec (mesh : MeshData) (l : Layout) : Prop :=
  l.binary_data =
      fBytes (vertexBuffer mesh) ++ fBytes (normalBuffer mesh) ++
      fBytes (uvBuffer mesh) ++ hBytesRaw (indexBuffer mesh) ++
      bBytesRaw (jointBuffer mesh) ++ fBytes (weightBuffer mesh) ++
      fBytes (ibmBuffer mesh) ∧
  (∀ a ∈ l.accessors, ∃ v, l.bufferViews.get? a.bufferView = some v ∧
      v.byteLength = a.count * (compSize a.componentType * compCount a.type)) ∧
  (∀ v ∈ l.bufferViews.head?, v.byteOffset = 0) ∧
  List.Chain' (fun u w => w.byteOffset = u.byteOffset + u.byteLength)
      l.bufferViews ∧
  (∀ v ∈ l.bufferViews.getLast?, v.byteOffset + v.byteLength =
      l.binary_data.length) ∧
  l.accessors.map (fun a => (a.componentType, a.type)) =
      [(5126, "VEC3")] ++
      (if normalsOf mesh = [] then [] else [(5126, "VEC3")]) ++
      (if uvsOf mesh = [] then [] else [(5126, "VEC2")]) ++
      [(5123, "SCALAR")] ++
      (if jointBuffer mesh = [] then [] else [(5121, "VEC4")]) ++
      (if weightBuffer mesh = [] then [] else [(5126, "VEC4")]) ++
      (if ibmBuffer mesh = [] then [] else [(5126, "MAT4")])

/-- A minimal mesh with a bone channel. -/
def meshBonedMin : MeshData :=
  { position := [(0, 0, 0)], face := [(0, 0, 0)], has_bones := true,
    bone_name := ["root"], bone_parent := [-1],
    vertex_bone := [[0]], vertex_weight := [[1]] }

/-- A plain two-vertex mesh with normals. -/
def meshPlain : MeshData :=
  { position := [(1, 2, 3), (4, 5, 6)], normal := [(1, 0, 0), (0, 1, 0)],
    face := [(0, 1, 0)], has_normals := true }

/-- A two-bone mesh whose bind matrices carry translations (2,3,4) and
(5,6,7); bone 1's parent is bone 0. -/
def meshBones : MeshData :=
  { position := [(1, 2, 3)], normal := [(0, 0, 1)], face := [(0, 0, 0)],
    has_bones := true, bone_name := ["a", "b"], bone_parent := [-1, 0],
    bone_matrix := [mkMat [[1,0,0,0],[0,1,0,0],[0,0,1,0],[2,3,4,1]],
                    mkMat [[1,0,0,0],[0,1,0,0],[0,0,1,0],[5,6,7,1]]] }

/-- A mesh exercising every exporter section: normals, UVs, bones (with no
recorded bind matrices, so identity inverse-bind matrices). -/
def meshFull : MeshData :=
  { position := [(1, 2, 3), (4, 5, 6)], normal := [(1, 0, 0), (0, 1, 0)],
    uv := [(0, 0), (1, 1)], face := [(0, 1, 1)],
    has_normals := true, has_uvs := true, has_bones := true,
    bone_name := ["a", "b"], bone_parent := [-1, 0],
    vertex_bone := [[0], [1]], vertex_weight := [[1], [1]] }

/-- A mesh with a face index beyond the unsigned 16-bit range. -/
def meshBigIdx : MeshData :=
  { position := [(0, 0, 0)], face := [(70000, 0, 0)] }

/-! ## Theorems -/

/-- C3: exporting a mesh whose positions or faces are empty fails with the
validation error (the spec's `InvalidMeshError`); the `Except.error` result
carries no document, and the validation is the first step of `convert`,
before any buffer or document content is built. -/
theorem c3_empty_mesh_rejected (mesh : MeshData)
    (h : mesh.position = [] ∨ mesh.face = []) :
    convert mesh = .error .invalidMesh := by
  unfold convert
  rcases h with h | h <;> simp [h]

/-- Witness for C3 at the all-defaults (empty) mesh. -/
theorem c3_witness :
    (({} : MeshData).position = [] ∨ ({} : MeshData).face = []) ∧
    convert {} = .error .invalidMesh :=
  ⟨Or.inl rfl, c3_empty_mesh_rejected {} (Or.inl rfl)⟩

/-- C2 (code bug): exporting a minimal mesh with one bone does not produce a
document with one skin — it raises `KeyError`, because the converter appends
to / reads `gltf_data["skins"]` although the dict it initializes never
receives a `"skins"` key. -/
theorem c2_boned_export_keyerror :
    convert meshBonedMin = .error .keyError := rfl

/-- C9: `focus(point)` on a 3-component point stores the point as the
position and then measures the distance from the just-stored position to the
same point, so the resulting distance is 0 (for any model of `math.sqrt`
sending 0 to 0). -/
theorem c9_focus_distance_zero (cam : Camera) (point : List ℚ) (sq : ℚ → ℚ)
    (hlen : point.length = 3) (hsq : sq 0 = 0) :
    (cam.focus point sq).pos =
      (point.getD 0 0, point.getD 1 0, point.getD 2 0) ∧
    (cam.focus point sq).dist = 0 := by
  unfold Camera.focus
  simp [hlen]
  convert hsq using 2

/-- Witness for C9 at point (1,2,3) with the identity as the sqrt model. -/
theorem c9_witness :
    ([(1 : ℚ), 2, 3].length = 3) ∧ (id : ℚ → ℚ) 0 = 0 ∧
    ((({} : Camera).focus [1, 2, 3] id).pos = (1, 2, 3) ∧
     (({} : Camera).focus [1, 2, 3] id).dist = 0) :=
  ⟨rfl, rfl, c9_focus_distance_zero {} [1, 2, 3] id rfl rfl⟩

/-- C7: the view matrix is `T(0,0,-dist) * (Rx(pitch) * Ry(yaw) * Rz(roll))
* T(-position)` — the rotation composed pitch-about-X first, then yaw, then
roll, the distance translation leftmost — and `view_proj` is
`proj * view`. -/
theorem c7_view_composition (cam : Camera) (t : TrigData) :
    cam.view t =
      translationMat (0, 0, -cam.dist) *
        (rotXMat t.cp t.sp * rotYMat t.cy t.sy * rotZMat t.cr t.sr) *
        translationMat (-cam.pos) ∧
    cam.view_proj t = cam.proj t * cam.view t := by
  constructor
  · unfold Camera.view Camera.rot qmTranslate qmRotX qmRotY qmRotZ
    simp [Matrix.one_mul, mul_assoc]
  · rfl

/-- C8 counterexample: post-processing the empty-positions mesh fails with a
numpy `IndexError`, which is not the exporter's validation error (the spec's
`InvalidMeshError`) — the post-processor performs no validation of its
own. -/
theorem c8_counterexample :
    processMesh { position := [] } = .error .indexError ∧
    PyError.indexError ≠ PyError.invalidMesh :=
  ⟨rfl, by decide⟩

/-- C8 amended: post-processing a mesh whose positions, faces or normals are
empty does fail — but with an unhandled numpy error (`IndexError`, or a
shape-mismatch `ValueError`), never with the dedicated validation error (the
spec's `InvalidMeshError`), which the post-processor does not raise. -/
theorem c8_empty_inputs_error (raw : MeshData)
    (h : raw.position = [] ∨ raw.face = [] ∨ raw.normal = []) :
    ∃ e, processMesh raw = .error e ∧ e ≠ PyError.invalidMesh := by
  unfold processMesh npFlipX npHstack npSwapIdx
  by_cases hp : raw.position.isEmpty
  · exact ⟨.indexError, by simp [hp], by decide⟩
  · by_cases hn : raw.normal.isEmpty
    · exact ⟨.indexError, by simp [hp, hn], by decide⟩
    · have hface : raw.face = [] := by
        rcases h with h | h | h
        · rw [h] at hp; simp at hp
        · exact h
        · rw [h] at hn; simp at hn
      by_cases hl : raw.position.length = raw.normal.length
      · exact ⟨.indexError, by simp [hp, hn, hl, hface], by decide⟩
      · exact ⟨.shapeMismatch, by simp [hp, hn, hl], by decide⟩

/-- Witness for the amended C8 at a mesh with faces but no positions. -/
theorem c8_amended_witness :
    (({ face := [(0, 0, 0)] } : MeshData).position = [] ∨
     ({ face := [(0, 0, 0)] } : MeshData).face = [] ∨
     ({ face := [(0, 0, 0)] } : MeshData).normal = []) ∧
    ∃ e, processMesh { face := [(0, 0, 0)] } = .error e ∧
      e ≠ PyError.invalidMesh :=
  ⟨Or.inl rfl, c8_empty_inputs_error { face := [(0, 0, 0)] } (Or.inl rfl)⟩

/-- Helper: a successful post-processing run forces the guards and
determines every output field. -/
theorem processMesh_ok_elim {raw : MeshData} {p : ProcessedMeshData}
    (h : processMesh raw = .ok p) :
    raw.position ≠ [] ∧ raw.normal ≠ [] ∧
    raw.position.length = raw.normal.length ∧ raw.face ≠ [] ∧
    ∃ bd, boneData raw.bone_parent raw.bone_matrix = .ok bd ∧
      p = { vertices := List.zipWith (fun a b => vrecord (flipV3 a) (flipV3 b))
              raw.position raw.normal,
            indices := raw.face.map swapFace,
            normal_lines := (List.zipWith
              (fun a b => [flipV3 a, flipV3 a + (8 / 1000 : ℚ) • flipV3 b])
              raw.position raw.normal).flatten,
            bone_positions := bd.1, bone_lines := bd.2 } := by
  unfold processMesh npFlipX npHstack npSwapIdx at h
  by_cases hp : raw.position.isEmpty
  · simp [hp] at h
  · by_cases hn : raw.normal.isEmpty
    · simp [hp, hn] at h
    · by_cases hl : raw.position.length = raw.normal.length
      · by_cases hf : raw.face.isEmpty
        · simp [hp, hn, hl, hf] at h
        · cases hbd : boneData raw.bone_parent raw.bone_matrix with
          | error e => simp [hp, hn, hl, hf, hbd] at h
          | ok bd =>
            simp [hp, hn, hl, hf, hbd] at h
            refine ⟨by simpa using hp, by simpa using hn, hl, by simpa using hf,
              bd, rfl, ?_⟩
            exact h.symm
      · simp [hp, hn, hl] at h

/-- Helper: `get?` through `zipWith`. -/
theorem zipWith_get? {α β γ : Type} (f : α → β → γ) (a : List α) (b : List β)
    (k : ℕ) :
    (List.zipWith f a b).get? k =
      (a.get? k).bind fun x => (b.get? k).map fun y => f x y := by
  induction a generalizing b k with
  | nil => simp
  | cons x xs ih =>
    cases b with
    | nil => simp
    | cons y ys => cases k with
      | zero => simp
      | succ k => simpa using ih ys k

/-- C4: on a mesh with as many normals as positions, the processed vertex
buffer has one 6-float record per source vertex — the position with X
negated, then the normal with X negated, Y and Z untouched. -/
theorem c4_vertex_buffer (raw : MeshData) (p : ProcessedMeshData)
    (h : processMesh raw = .ok p)
    (hN : raw.position.length = raw.normal.length) :
    p.vertices.length = raw.position.length ∧
    ∀ k : ℕ, p.vertices.get? k =
      ((raw.position.zip raw.normal).get? k).map
        (fun pr => [-pr.1.1, pr.1.2.1, pr.1.2.2, -pr.2.1, pr.2.2.1, pr.2.2.2]) := by
  obtain ⟨h1, h2, h3, h4, bd, hbd, hp⟩ := processMesh_ok_elim h
  subst hp
  constructor
  · simp [List.length_zipWith, hN]
  · intro k
    rw [zipWith_get?, List.zip_eq_zipWith, zipWith_get?]
    cases raw.position.get? k <;> cases raw.normal.get? k <;>
      simp [vrecord, flipV3]

/-- Witness for C4 at the two-vertex mesh. -/
theorem c4_witness :
    (∃ p, processMesh meshPlain = .ok p ∧
      (p.vertices.length = meshPlain.position.length ∧
       ∀ k : ℕ, p.vertices.get? k =
         ((meshPlain.position.zip meshPlain.normal).get? k).map
           (fun pr => [-pr.1.1, pr.1.2.1, pr.1.2.2,
                       -pr.2.1, pr.2.2.1, pr.2.2.2]))) ∧
    meshPlain.position.length = meshPlain.normal.length :=
  ⟨⟨_, rfl, c4_vertex_buffer meshPlain _ rfl rfl⟩, rfl⟩

/-- C5: each face `(a,b,c)` comes out as `(b,a,c)` at the same position, and
the transformation is an involution — post-processing the already-flipped
mesh restores the original positions/normals interleaving and the original
faces. -/
theorem c5_index_swap_involution (raw : MeshData) (p : ProcessedMeshData)
    (h : processMesh raw = .ok p) :
    (∀ k : ℕ, p.indices.get? k = (raw.face.get? k).map swapFace) ∧
    (processMesh (flipRaw raw)).map (fun q => q.indices) = .ok raw.face ∧
    (processMesh (flipRaw raw)).map (fun q => q.vertices) =
      .ok ((raw.position.zip raw.normal).map fun pr => vrecord pr.1 pr.2) := by
  obtain ⟨h1, h2, h3, h4, bd, hbd, hp⟩ := processMesh_ok_elim h
  subst hp
  have hff : ∀ v : Vec3, flipV3 (flipV3 v) = v := by intro v; simp [flipV3]
  have hss : ∀ f : Face, swapFace (swapFace f) = f := by intro f; rfl
  have hcss : swapFace ∘ swapFace = id := funext hss
  refine ⟨fun k => by simp [List.getElem?_map], ?_, ?_⟩
  · unfold processMesh npFlipX npHstack npSwapIdx flipRaw
    simp [h1, h2, h3, h4, hbd, List.map_map, hff, hcss, Except.map]
  · unfold processMesh npFlipX npHstack npSwapIdx flipRaw
    simp [h1, h2, h3, h4, hbd, List.map_map, hff, hcss, Except.map,
      List.zip_eq_zipWith, List.map_zipWith, vrecord]

/-- Witness for C5 at the two-vertex mesh. -/
theorem c5_witness :
    ∃ p, processMesh meshPlain = .ok p ∧
      ((∀ k : ℕ, p.indices.get? k = (meshPlain.face.get? k).map swapFace) ∧
       (processMesh (flipRaw meshPlain)).map (fun q => q.indices) =
         .ok meshPlain.face ∧
       (processMesh (flipRaw meshPlain)).map (fun q => q.vertices) =
         .ok ((meshPlain.position.zip meshPlain.normal).map
               fun pr => vrecord pr.1 pr.2)) :=
  ⟨_, rfl, c5_index_swap_involution meshPlain _ rfl⟩

/-- Helper: a successful Python subscript at a nonnegative index is in range
and returns the `getD` value. -/
theorem pyGetE_ok_elim {α : Type} {l : List α} {i : ℤ} {x : α} (d : α)
    (h0 : 0 ≤ i) (h : pyGetE l i = .ok x) :
    i.toNat < l.length ∧ x = l.getD i.toNat d := by
  unfold pyGetE at h
  have hneg : ¬ i < 0 := by omega
  simp only [hneg, if_false] at h
  split at h
  · rename_i hc
    refine ⟨hc.2, ?_⟩
    cases h
    rw [List.getD_eq_getElem l d hc.2]
    simp [List.get_eq_getElem]
  · cases h

/-- Helper: a Python subscript at an in-range nonnegative index succeeds. -/
theorem pyGetE_eq_ok {α : Type} (l : List α) (i : ℤ) (d : α)
    (h0 : 0 ≤ i) (hlt : i.toNat < l.length) :
    pyGetE l i = .ok (l.getD i.toNat d) := by
  unfold pyGetE
  have hneg : ¬ i < 0 := by omega
  simp only [hneg, if_false]
  rw [dif_pos ⟨h0, hlt⟩, List.getD_eq_getElem l d hlt]
  simp [List.get_eq_getElem]

/-- Helper: the bone step on a root bone. -/
theorem boneStep_root (mats : List Mat4) (acc : List Vec3 × List Vec3)
    (ip : ℕ × ℤ) (m : Mat4) (hm : pyGetE mats (ip.1 : ℤ) = .ok m)
    (hpar : ip.2 = -1) :
    boneStep mats acc ip = .ok (acc.1 ++ [flipV3 (translOf m)], acc.2) := by
  unfold boneStep
  rw [hm]
  simp [hpar]

/-- Helper: the bone step on a bone with a parent. -/
theorem boneStep_child (mats : List Mat4) (acc : List Vec3 × List Vec3)
    (ip : ℕ × ℤ) (m pm : Mat4) (hm : pyGetE mats (ip.1 : ℤ) = .ok m)
    (hpar : ip.2 ≠ -1) (hpm : pyGetE mats ip.2 = .ok pm) :
    boneStep mats acc ip = .ok (acc.1 ++ [flipV3 (translOf m)],
      acc.2 ++ [flipV3 (translOf m), flipV3 (translOf pm)]) := by
  unfold boneStep
  rw [hm]
  simp [hpar, hpm]

/-- Helper: the bone step fails when the bone's own matrix lookup fails. -/
theorem boneStep_err (mats : List Mat4) (acc : List Vec3 × List Vec3)
    (ip : ℕ × ℤ) (e : PyError) (hm : pyGetE mats (ip.1 : ℤ) = .error e) :
    boneStep mats acc ip = .error e := by
  unfold boneStep
  rw [hm]

/-- Helper: characterization of the bone fold's line output for valid parent
indices. -/
theorem boneFold_ok_snd (mats : List Mat4) (l : List (ℕ × ℤ))
    (acc : List Vec3 × List Vec3) (res : List Vec3 × List Vec3)
    (hv : ∀ ip ∈ l, ip.2 = -1 ∨ (0 ≤ ip.2 ∧ ip.2.toNat < mats.length))
    (h : boneFold mats l acc = .ok res) :
    res.2 = acc.2 ++ l.flatMap (fun ip => if ip.2 = -1 then []
      else [bonePosOf mats ip.1, bonePosOf mats ip.2.toNat]) := by
  induction l generalizing acc with
  | nil =>
    unfold boneFold at h
    cases h
    simp
  | cons ip rest ih =>
    unfold boneFold at h
    cases hg : pyGetE mats (ip.1 : ℤ) with
    | error e =>
      rw [boneStep_err mats acc ip e hg] at h
      simp at h
    | ok m =>
      obtain ⟨hblt, hm⟩ := pyGetE_ok_elim (1 : Mat4) (Int.natCast_nonneg ip.1) hg
      by_cases hpar : ip.2 = -1
      · rw [boneStep_root mats acc ip m hg hpar] at h
        simp only [] at h
        have hrest := ih _ (fun q hq => hv q (List.mem_cons_of_mem _ hq)) h
        simp [hrest, hpar]
      · rcases hv ip (List.mem_cons_self _ _) with hc | ⟨hge, hlt⟩
        · exact absurd hc hpar
        · rw [boneStep_child mats acc ip m (mats.getD ip.2.toNat 1) hg hpar
              (pyGetE_eq_ok mats ip.2 (1 : Mat4) hge hlt)] at h
          simp only [] at h
          have hrest := ih _ (fun q hq => hv q (List.mem_cons_of_mem _ hq)) h
          simp [hrest, hpar, bonePosOf, hm]

/-- Helper: length of the optional-pair flatMap. -/
theorem flatMap_pair_length (L : List (ℕ × ℤ)) (g1 g2 : ℕ × ℤ → Vec3) :
    (L.flatMap fun ip => if ip.2 = -1 then [] else [g1 ip, g2 ip]).length =
      2 * (L.filter fun ip => ip.2 ≠ -1).length := by
  induction L with
  | nil => simp
  | cons ip rest ih =>
    by_cases hpar : ip.2 = -1
    · simp [hpar, ih]
    · simp only [List.flatMap_cons, List.filter_cons, hpar, if_neg hpar,
        List.length_append, List.length_cons, ih]
      simp [hpar]
      omega

/-- Helper: filtering an enumeration by a predicate on the element keeps the
same length as filtering the plain list. -/
theorem enumFrom_filter_length (p : ℤ → Bool) (l : List ℤ) (n : ℕ) :
    ((List.enumFrom n l).filter fun ip => p ip.2).length =
      (l.filter p).length := by
  induction l generalizing n with
  | nil => simp
  | cons x xs ih =>
    by_cases hx : p x <;> simp [List.enumFrom, List.filter, hx, ih]

/-- C6 -/
theorem c6_bone_lines (raw : MeshData) (p : ProcessedMeshData)
    (h : processMesh raw = .ok p)
    (hv : ∀ q ∈ raw.bone_parent,
      q = -1 ∨ (0 ≤ q ∧ q.toNat < raw.bone_matrix.length)) :
    p.bone_lines.length =
      2 * (raw.bone_parent.filter fun q => q ≠ -1).length ∧
    p.bone_lines = specBoneLines raw.bone_parent raw.bone_matrix := by
  obtain ⟨h1, h2, h3, h4, bd, hbd, hp⟩ := processMesh_ok_elim h
  subst hp
  unfold boneData at hbd
  have hv' : ∀ ip ∈ raw.bone_parent.enum,
      ip.2 = -1 ∨ (0 ≤ ip.2 ∧ ip.2.toNat < raw.bone_matrix.length) :=
    fun ip hip => hv ip.2 (List.snd_mem_of_mem_enum hip)
  have hsnd := boneFold_ok_snd raw.bone_matrix raw.bone_parent.enum ([], [])
    bd hv' hbd
  have heq : bd.2 = specBoneLines raw.bone_parent raw.bone_matrix := by
    simpa [specBoneLines] using hsnd
  refine ⟨?_, heq⟩
  rw [heq]
  unfold specBoneLines
  rw [flatMap_pair_length]
  congr 1
  exact enumFrom_filter_length (fun q => decide (q ≠ -1)) raw.bone_parent 0

/-- C6 witness -/
theorem c6_witness :
    (∀ q ∈ meshBones.bone_parent,
      q = -1 ∨ (0 ≤ q ∧ q.toNat < meshBones.bone_matrix.length)) ∧
    ∃ p, processMesh meshBones = .ok p ∧
      (p.bone_lines.length =
        2 * (meshBones.bone_parent.filter fun q => q ≠ -1).length ∧
       p.bone_lines =
         specBoneLines meshBones.bone_parent meshBones.bone_matrix) :=
  ⟨by decide, _, rfl, c6_bone_lines meshBones _ rfl (by decide)⟩

/-- C10: a mesh with a face index above 65535 (and at least one position, as
any mesh with in-range face indices referencing such an index must have)
fails inside `struct.pack` on the unsigned-short index section, before any
bytes are returned: the exporter performs no range validation of its own. -/
theorem c10_big_index_pack_failure (mesh : MeshData)
    (hpos : mesh.position ≠ [])
    (hbig : ∃ f ∈ mesh.face, 65535 < f.1 ∨ 65535 < f.2.1 ∨ 65535 < f.2.2) :
    convert mesh = .error .structError := by
  obtain ⟨f, hf, hc⟩ := hbig
  have hface : mesh.face ≠ [] := fun h => by simp [h] at hf
  have hH : packH (indexBuffer mesh) = .error .structError := by
    unfold packH
    rw [if_neg]
    intro hall
    rw [List.all_eq_true] at hall
    have hm : ∀ x ∈ indexBuffer mesh, x ≤ 65535 := by
      intro x hx
      have := hall x hx
      simpa using this
    rcases hc with hc | hc | hc
    · have : f.1 ∈ indexBuffer mesh :=
        List.mem_flatMap.mpr ⟨f, hf, by simp⟩
      exact absurd (hm _ this) (by omega)
    · have : f.2.1 ∈ indexBuffer mesh :=
        List.mem_flatMap.mpr ⟨f, hf, by simp⟩
      exact absurd (hm _ this) (by omega)
    · have : f.2.2 ∈ indexBuffer mesh :=
        List.mem_flatMap.mpr ⟨f, hf, by simp⟩
      exact absurd (hm _ this) (by omega)
  have hL : buildLayout mesh = .error .structError := by
    simp only [buildLayout]
    rw [hH]
  unfold convert
  rw [if_neg (by simp [hpos, hface]), hL]

/-- Witness for C10 at a one-vertex mesh with face index 70000. -/
theorem c10_witness :
    meshBigIdx.position ≠ [] ∧
    (∃ f ∈ meshBigIdx.face, 65535 < f.1 ∨ 65535 < f.2.1 ∨ 65535 < f.2.2) ∧
    convert meshBigIdx = .error .structError :=
  ⟨by decide, by decide,
   c10_big_index_pack_failure meshBigIdx (by decide) (by decide)⟩

theorem flatMap_length_const {α β : Type} (l : List α) (f : α → List β) (n : ℕ)
    (h : ∀ a, (f a).length = n) : (l.flatMap f).length = n * l.length := by
  induction l with
  | nil => simp
  | cons x xs ih =>
    simp [h, ih, Nat.mul_succ]
    omega

theorem flat3_length (l : List Vec3) : (flat3 l).length = 3 * l.length :=
  flatMap_length_const l _ 3 fun _ => rfl

theorem flat2_length (l : List Vec2) : (flat2 l).length = 2 * l.length :=
  flatMap_length_const l _ 2 fun _ => rfl

theorem flat3_nil : flat3 [] = [] := rfl

theorem flat2_nil : flat2 [] = [] := rfl

theorem fBytes_length (xs : List ℚ) : (fBytes xs).length = 4 * xs.length :=
  flatMap_length_const xs _ 4 fun _ => rfl

theorem fBytes_nil : fBytes [] = [] := rfl

theorem hBytesRaw_length (xs : List ℕ) : (hBytesRaw xs).length = 2 * xs.length :=
  flatMap_length_const xs _ 2 fun _ => rfl

theorem bBytesRaw_length (xs : List ℕ) : (bBytesRaw xs).length = xs.length :=
  List.length_map xs _

theorem indexBuffer_length (mesh : MeshData) :
    (indexBuffer mesh).length = 3 * mesh.face.length :=
  flatMap_length_const mesh.face _ 3 fun _ => rfl

theorem jwf_fst_length (mesh : MeshData) (i : ℕ) :
    ((jointsWeightsFor mesh i).1).length = 4 := by
  unfold jointsWeightsFor pad4N
  split
  · simp [List.length_take]
  · rfl

theorem jwf_snd_length (mesh : MeshData) (i : ℕ) :
    ((jointsWeightsFor mesh i).2).length = 4 := by
  unfold jointsWeightsFor pad4Q
  split
  · split <;> simp [List.length_take]
  · rfl

theorem jointBuffer_length (mesh : MeshData) :
    (jointBuffer mesh).length =
      if mesh.has_bones then 4 * mesh.position.length else 0 := by
  unfold jointBuffer
  split
  · rw [flatMap_length_const _ _ 4 (jwf_fst_length mesh), List.length_range]
  · rfl

theorem weightBuffer_length (mesh : MeshData) :
    (weightBuffer mesh).length =
      if mesh.has_bones then 4 * mesh.position.length else 0 := by
  unfold weightBuffer
  split
  · rw [flatMap_length_const _ _ 4 (jwf_snd_length mesh), List.length_range]
  · rfl

theorem flatten16_length (m : Mat4) : (flatten16 m).length = 16 := rfl

theorem ibmBuffer_length_dvd (mesh : MeshData) : 16 ∣ (ibmBuffer mesh).length := by
  unfold ibmBuffer
  split
  · split
    · rw [flatMap_length_const _ _ 16 (fun _ => flatten16_length 1)]
      exact Dvd.intro _ rfl
    · rw [flatMap_length_const _ _ 16 (fun m => flatten16_length (inv4 m))]
      exact Dvd.intro _ rfl
  · simp

theorem vertexBuffer_length (mesh : MeshData) :
    (vertexBuffer mesh).length = 3 * mesh.position.length := flat3_length _

theorem normalBuffer_length (mesh : MeshData) :
    (normalBuffer mesh).length = 3 * (normalsOf mesh).length := flat3_length _

theorem uvBuffer_length (mesh : MeshData) :
    (uvBuffer mesh).length = 2 * (uvsOf mesh).length := flat2_length _

theorem packH_ok_elim {xs : List ℕ} {ys : List GByte}
    (h : packH xs = .ok ys) : ys = hBytesRaw xs := by
  unfold packH at h
  split at h
  · cases h; rfl
  · cases h

theorem appendPackB_ok_elim {bd : List GByte} {xs : List ℕ}
    {r : List GByte × ℕ} (h : appendPackB bd xs = .ok r) :
    r = (bd ++ bBytesRaw xs, xs.length) := by
  unfold appendPackB at h
  split at h
  · rename_i hxs
    cases h
    have : xs = [] := by simpa using hxs
    simp [this, bBytesRaw]
  · cases hB : packB xs with
    | error e => rw [hB] at h; cases h
    | ok ys =>
      rw [hB] at h
      cases h
      unfold packB at hB
      split at hB
      · cases hB; rfl
      · cases hB

theorem ite_isEmpty_append {bd : List GByte} {l : List ℚ} :
    (if l.isEmpty then bd else bd ++ fBytes l) = bd ++ fBytes l := by
  cases l <;> simp [fBytes]

theorem ite_isEmpty_mul {l : List ℚ} (k : ℕ) :
    (if l.isEmpty then 0 else l.length * k) = l.length * k := by
  cases l <;> simp

set_option maxHeartbeats 3200000 in
/-- C1: for every mesh the exporter accepts (non-empty positions and faces,
packing succeeded), the blob is the concatenation of the packed sections in
the fixed order positions, normals, UVs, indices, joints, weights,
inverse-bind matrices; every accessor's buffer view spans
`count x component_size x component_count` bytes; the buffer views tile the
blob contiguously from offset 0 (empty sections skipped); and the accessors
carry exactly the claimed float-vec3 / float-vec2 / ushort-scalar /
ubyte-vec4 / float-vec4 / float-mat4 signatures. -/
theorem c1_layout (mesh : MeshData) (l : Layout)
    (hpos : mesh.position ≠ []) (hface : mesh.face ≠ [])
    (h : buildLayout mesh = .ok l) : layoutSpec mesh l := by
  simp only [buildLayout] at h
  split at h
  · simp at h
  · rename_i ibB hH
    have hibB := packH_ok_elim hH
    subst hibB
    split at h
    · simp at h
    · rename_i bdj hA
      have hbdj := appendPackB_ok_elim hA
      subst hbdj
      cases h
      obtain ⟨nj, hnj⟩ : 4 ∣ (jointBuffer mesh).length := by
        rw [jointBuffer_length]; split <;> omega
      obtain ⟨nw, hnw⟩ : 4 ∣ (weightBuffer mesh).length := by
        rw [weightBuffer_length]; split <;> omega
      obtain ⟨ni, hni⟩ := ibmBuffer_length_dvd mesh
      clear hA hH
      unfold layoutSpec
      simp only [ite_isEmpty_append, ite_isEmpty_mul,
        List.length_append, fBytes_length, hBytesRaw_length, bBytesRaw_length,
        vertexBuffer_length, normalBuffer_length, uvBuffer_length,
        indexBuffer_length]
      by_cases hnb : normalsOf mesh = [] <;>
        by_cases huv : uvsOf mesh = [] <;>
        by_cases hjb : jointBuffer mesh = [] <;>
        by_cases hwb : weightBuffer mesh = [] <;>
        by_cases hibm : ibmBuffer mesh = [] <;>
        (simp [hnb, huv, hjb, hwb, hibm, List.length_pos, fBytes_length,
           hBytesRaw_length, bBytesRaw_length, flat3_length, flat2_length,
           indexBuffer_length, vertexBuffer, normalBuffer, uvBuffer,
           flat3_nil, flat2_nil, fBytes_nil, compSize, compCount,
           List.chain'_cons] <;> omega)
/-- Witness for C1 at the full-featured mesh (normals, UVs, bones). -/
theorem c1_witness :
    meshFull.position ≠ [] ∧ meshFull.face ≠ [] ∧
    ∃ l, buildLayout meshFull = .ok l ∧ layoutSpec meshFull l :=
  ⟨by decide, by decide, _, rfl,
   c1_layout meshFull _ (by decide) (by decide) rfl⟩

end NeoX
